import Mathlib

/-!
Shallow embedding of the `vcvars` Rust crate (src/lib.rs).

The crate runs Microsoft's `vswhere.exe` and `vcvarsall.bat` (via `cmd.exe`)
in child processes and parses the resulting environment dump.  All effects
(environment-variable reads, file-existence checks, subprocess invocations,
cache-file I/O) are modelled by explicit "world" records of functions, and
every operation additionally returns the list of subprocess invocations it
performed, so that temporal claims ("no subprocess is spawned", "at most one
build") become statements about that trace.

Strings are Lean `String`s; Rust's `String::to_uppercase`/`to_lowercase` are
modelled character-wise, faithfully on the characters exercised here (ASCII,
and U+0130 LATIN CAPITAL LETTER I WITH DOT ABOVE whose Rust lowercase is the
two-character sequence U+0069 U+0307); all other characters map to themselves.
-/

set_option autoImplicit false
set_option maxRecDepth 100000

namespace VcvarsRs

/-- Model of an opaque `std::io::Error` payload (only carried, never inspected). -/
abbrev IOErrorMsg := String

/-- Decidable equality for `Except`, for concrete evaluation of results. -/
instance exceptDecEq {ε α : Type} [DecidableEq ε] [DecidableEq α] :
    DecidableEq (Except ε α) := fun a b =>
  match a, b with
  | Except.ok x, Except.ok y =>
    if h : x = y then Decidable.isTrue (by rw [h]) else Decidable.isFalse (by simp [h])
  | Except.error x, Except.error y =>
    if h : x = y then Decidable.isTrue (by rw [h]) else Decidable.isFalse (by simp [h])
  | Except.ok _, Except.error _ => Decidable.isFalse (by simp)
  | Except.error _, Except.ok _ => Decidable.isFalse (by simp)

/-- `VcvarsError` from src/lib.rs (payloads: the same strings / error values the code stores). -/
inductive VcvarsError where
  | MissingEnvVarDependency (name : String)
  | FileNotFound (path : String)
  | UnsupportedArch
  | CouldntRun (path : String) (err : IOErrorMsg)
  | VcvarsFailed (msg : String)
  | CacheFailed (path : String) (err : IOErrorMsg)
  | VarNotFound (name : String)
  deriving DecidableEq

/-- A subprocess invocation performed by the crate, with the full argument list
(the trace of `Command::output()` calls). -/
inductive Invocation where
  | vswhere (args : List String)
  | cmdExe (args : List String)
  deriving DecidableEq

/-- Output of a finished subprocess: captured stdout (after the code's UTF-8
decoding step) and the numeric exit status.  The Rust code never reads the
status; it is carried in the model precisely to prove that. -/
structure CmdOutput where
  stdout : String
  status : Nat
  deriving DecidableEq

/-- The external world `make_env_map` interacts with: `env::var`,
`env::consts::ARCH`, `Path::is_file`, and the behaviour of the two child
processes (keyed by their argument lists; `Except.error` = spawn failure). -/
structure World where
  envVar : String → Option String
  hostArch : String
  isFile : String → Bool
  runVswhere : List String → Except IOErrorMsg String
  runCmd : List String → Except IOErrorMsg CmdOutput

/-- `EnvMap` (`HashMap<String, String>` in the source): modelled as an
association list with unique keys; only `insert` and `get` are used. -/
abbrev EnvMap := List (String × String)

/-- `HashMap::insert`: upsert (replaces any existing entry for the key). -/
def envInsert (m : EnvMap) (k v : String) : EnvMap :=
  (k, v) :: m.filter (fun p => p.1 ≠ k)

/-- `HashMap::get`. -/
def envGet (m : EnvMap) (k : String) : Option String :=
  (m.find? (fun p => p.1 = k)).map (fun p => p.2)

/-- The fields of `struct Vcvars` (the borrowed lifetime is irrelevant here). -/
structure VcvarsState where
  env_map : Option EnvMap
  vswhere_latest_substitute_args : Option (List String)
  deriving DecidableEq

/-- `Vcvars::new()`. -/
def Vcvars.new : VcvarsState :=
  { env_map := none, vswhere_latest_substitute_args := none }

/-- `Vcvars::not_vswhere_latest_but(substitute_args)`. -/
def not_vswhere_latest_but (s : VcvarsState) (substitute_args : List String) : VcvarsState :=
  { s with vswhere_latest_substitute_args := some substitute_args }

/-- Model of Rust `char`-level uppercasing (`char::to_uppercase`), restricted to
the characters relevant to this development: ASCII letters map as usual, every
other character maps to itself (U+0130 is its own uppercase). -/
def rustCharUpper (c : Char) : List Char :=
  if 'a' ≤ c ∧ c ≤ 'z' then [Char.ofNat (c.toNat - 32)] else [c]

/-- Model of Rust `char`-level lowercasing (`char::to_lowercase`), restricted to
the characters relevant here: ASCII letters map as usual, and U+0130 (LATIN
CAPITAL LETTER I WITH DOT ABOVE) lowercases to the two-character sequence
U+0069 U+0307, exactly as in Rust/Unicode; every other character maps to itself. -/
def rustCharLower (c : Char) : List Char :=
  if 'A' ≤ c ∧ c ≤ 'Z' then [Char.ofNat (c.toNat + 32)]
  else if c = Char.ofNat 0x130 then [Char.ofNat 0x69, Char.ofNat 0x307]
  else [c]

/-- Model of Rust `str::to_uppercase`. -/
def rust_to_uppercase (s : String) : String :=
  String.mk (s.toList.map rustCharUpper).flatten

/-- Model of Rust `str::to_lowercase`. -/
def rust_to_lowercase (s : String) : String :=
  String.mk (s.toList.map rustCharLower).flatten

/-- Rust `str::starts_with(prefix)`. -/
def rust_starts_with (s p : String) : Bool :=
  p.toList.isPrefixOf s.toList

/-- Rust `char::is_whitespace`, restricted to the ASCII whitespace characters
(the only ones exercised here). -/
def rust_is_whitespace (c : Char) : Bool :=
  c = ' ' || c = '\t' || c = '\n' || c = '\r'

/-- Rust `str::trim()`: strip leading and trailing whitespace. -/
def rust_trim (s : String) : String :=
  String.mk ((((s.toList.dropWhile rust_is_whitespace).reverse.dropWhile
    rust_is_whitespace).reverse))

/-- Rust `str::replace(c, rep)` with a `char` pattern: every occurrence of the
character is replaced by the string. -/
def rust_replace_char (s : String) (c : Char) (rep : String) : String :=
  String.mk (s.toList.map (fun x => if x = c then rep.toList else [x])).flatten

/-- Splitting a character list at every occurrence of `c` (the segments of
Rust `str::lines` / Lean `String.splitOn`). -/
def split_on_char (c : Char) : List Char → List (List Char)
  | [] => [[]]
  | x :: xs =>
    if x = c then [] :: split_on_char c xs
    else
      match split_on_char c xs with
      | g :: gs => (x :: g) :: gs
      | [] => [[x]]

/-- Joining strings with a separator (`Itertools::intersperse(…).collect::<String>()`). -/
def join_with (sep : String) : List String → String
  | [] => ""
  | [x] => x
  | x :: xs => x ++ sep ++ join_with sep xs

/-- Rust `str::split_once(c)` on the character list: split at the first
occurrence of `c`, or `none` when `c` does not occur. -/
def splitOnceAux (d : Char) : List Char → Option (List Char × List Char)
  | [] => none
  | c :: cs =>
    if c = d then some ([], cs)
    else (splitOnceAux d cs).map (fun p => (c :: p.1, p.2))

/-- Rust `str::split_once(c)`. -/
def split_once (s : String) (c : Char) : Option (String × String) :=
  (splitOnceAux c s.toList).map (fun p => (String.mk p.1, String.mk p.2))

/-- Strip one trailing carriage return (part of Rust `str::lines`). -/
def strip_cr (l : String) : String :=
  match l.toList.reverse with
  | '\r' :: rest => String.mk rest.reverse
  | _ => l

/-- Helper for `rust_lines`: the segments obtained by splitting on newline; the
last segment is dropped when empty (string ended in a line terminator) and, not
being followed by a newline, keeps a trailing carriage return. -/
def rust_lines_aux : List String → List String
  | [] => []
  | [last] => if last = "" then [] else [last]
  | l :: ls => strip_cr l :: rust_lines_aux ls

/-- Model of Rust `str::lines()`: split at `\n`, also stripping a preceding
`\r`; a final line terminator produces no extra empty line. -/
def rust_lines (s : String) : List String :=
  rust_lines_aux ((split_on_char '\n' s.toList).map String.mk)

/-- The unique separator line echoed between vcvars output and the `set` dump
(src/lib.rs line 235). -/
def separator_line : String :=
  String.mk (List.replicate 20 '=') ++ "_unique_separator_by_rust_crate_that_utilizes_vcvars"

/-- The escaping applied to the `vcvarsall.bat` path before handing it to
`cmd.exe` (src/lib.rs line 231): double carets, then caret-escape ampersands. -/
def escape_for_cmd (p : String) : String :=
  rust_replace_char (rust_replace_char p '^' "^^") '&' "^&"

/-- The full `vswhere.exe` argument list (src/lib.rs lines 169-173):
`-prerelease`, then the taken substitute args or the default `-latest`, then
`-property installationPath -utf8`. -/
def vswhere_full_args (substitute : Option (List String)) : List String :=
  "-prerelease" :: (substitute.getD ["-latest"]) ++ ["-property", "installationPath", "-utf8"]

/-- The architecture-argument table of `make_env_map` (src/lib.rs lines 206-222):
(host architecture, `CARGO_CFG_TARGET_ARCH`) to the `vcvarsall.bat` token. -/
def arch_arg_for (host target : String) : Option String :=
  match host with
  | "x86" =>
    match target with
    | "x86" => some "x86"
    | "x86_64" => some "x86_x64"
    | "arm" => some "x86_arm"
    | "aarch64" => some "x86_arm64"
    | _ => none
  | "x86_64" =>
    match target with
    | "x86" => some "x64_x86"
    | "x86_64" => some "x64"
    | "arm" => some "x64_arm"
    | "aarch64" => some "x64_arm64"
    | _ => none
  | _ => none

/-- The loop of `make_env_map` over the dump lines (src/lib.rs lines 270-280):
before the separator is seen, a line starting with `separator_line` flips the
`may_collect` flag; afterwards each line is `split_once('=')` and upserted with
the uppercased name, lines without `=` being skipped. -/
def parse_env_lines : List String → Bool → EnvMap → EnvMap
  | [], _, env => env
  | l :: ls, mayCollect, env =>
    if mayCollect then
      match split_once l '=' with
      | some kv => parse_env_lines ls true (envInsert env (rust_to_uppercase kv.1) kv.2)
      | none => parse_env_lines ls true env
    else if rust_starts_with l separator_line then parse_env_lines ls true env
    else parse_env_lines ls false env

/-- What `make_env_map` does with the decoded `cmd.exe` stdout (src/lib.rs
lines 258-282): an output starting with the error marker `[ERROR:` fails with
`VcvarsFailed` carrying the lines joined by the literal two characters `\n`;
otherwise the dump is parsed into the environment map.  The exit status is not
an input: the code never inspects it. -/
def process_cmd_stdout (stdout : String) : Except VcvarsError EnvMap :=
  if rust_starts_with stdout "[ERROR:" then
    Except.error (VcvarsError.VcvarsFailed (join_with "\\n" (rust_lines stdout)))
  else
    Except.ok (parse_env_lines (rust_lines stdout) false [])

/-- Result of a resolver operation: the `Result` value, the updated `Vcvars`
state, and the subprocess invocations performed (in order). -/
structure StepResult (α : Type) where
  result : Except VcvarsError α
  state : VcvarsState
  trace : List Invocation
  deriving DecidableEq

/-- `Vcvars::make_env_map` (src/lib.rs lines 136-283), step by step: read the
three environment variables, locate `vswhere.exe`, take (`mem::take`) the
substitute arguments and invoke `vswhere`, locate `vcvarsall.bat`, select the
architecture token, invoke `cmd.exe /C vcvarsall … && echo.separator && set`,
and process the captured stdout. -/
def make_env_map (w : World) (s : VcvarsState) : StepResult EnvMap :=
  match w.envVar "PROGRAMFILES(X86)" with
  | none => ⟨Except.error (VcvarsError.MissingEnvVarDependency "PROGRAMFILES(X86)"), s, []⟩
  | some program_files_x86_dir =>
    match w.envVar "WINDIR" with
    | none => ⟨Except.error (VcvarsError.MissingEnvVarDependency "WINDIR"), s, []⟩
    | some win_dir =>
      match w.envVar "CARGO_CFG_TARGET_ARCH" with
      | none => ⟨Except.error (VcvarsError.MissingEnvVarDependency "CARGO_CFG_TARGET_ARCH"), s, []⟩
      | some target_arch =>
        let vswhere_path := program_files_x86_dir ++ "\\Microsoft Visual Studio\\Installer\\vswhere.exe"
        if w.isFile vswhere_path = false then
          ⟨Except.error (VcvarsError.FileNotFound vswhere_path), s, []⟩
        else
          let full_args := vswhere_full_args s.vswhere_latest_substitute_args
          let s2 : VcvarsState := { s with vswhere_latest_substitute_args := none }
          match w.runVswhere full_args with
          | Except.error err =>
            ⟨Except.error (VcvarsError.CouldntRun vswhere_path err), s2, [Invocation.vswhere full_args]⟩
          | Except.ok vswhere_stdout =>
            let visual_studio_dir := rust_trim vswhere_stdout
            let vcvars_path := visual_studio_dir ++ "\\VC\\Auxiliary\\Build\\vcvarsall.bat"
            if w.isFile vcvars_path = false then
              ⟨Except.error (VcvarsError.FileNotFound vcvars_path), s2, [Invocation.vswhere full_args]⟩
            else
              match arch_arg_for w.hostArch target_arch with
              | none => ⟨Except.error VcvarsError.UnsupportedArch, s2, [Invocation.vswhere full_args]⟩
              | some arch_arg =>
                let cmd_exe_path := win_dir ++ "\\System32\\cmd.exe"
                let escaped := escape_for_cmd vcvars_path
                let cmd_args := ["/C", escaped, arch_arg, "&&", "echo." ++ separator_line, "&&", "set"]
                match w.runCmd cmd_args with
                | Except.error err =>
                  ⟨Except.error (VcvarsError.CouldntRun cmd_exe_path err), s2,
                    [Invocation.vswhere full_args, Invocation.cmdExe cmd_args]⟩
                | Except.ok output =>
                  ⟨process_cmd_stdout output.stdout, s2,
                    [Invocation.vswhere full_args, Invocation.cmdExe cmd_args]⟩

/-- `Vcvars::ensure_env_map` (src/lib.rs lines 128-134): build the map only when
`env_map` is `None`; a build error propagates and leaves `env_map` unset. -/
def ensure_env_map (w : World) (s : VcvarsState) : StepResult EnvMap :=
  match s.env_map with
  | some m => ⟨Except.ok m, s, []⟩
  | none =>
    match make_env_map w s with
    | ⟨Except.ok m, s2, tr⟩ => ⟨Except.ok m, { s2 with env_map := some m }, tr⟩
    | ⟨Except.error e, s2, tr⟩ => ⟨Except.error e, s2, tr⟩

/-- `Vcvars::get` (src/lib.rs lines 116-126): ensure the map, then look up the
uppercased name; a missing entry is `VarNotFound` carrying the original name. -/
def Vcvars.get (w : World) (s : VcvarsState) (var_name : String) : StepResult String :=
  match ensure_env_map w s with
  | ⟨Except.ok m, s2, tr⟩ =>
    match envGet m (rust_to_uppercase var_name) with
    | some value => ⟨Except.ok value, s2, tr⟩
    | none => ⟨Except.error (VcvarsError.VarNotFound var_name), s2, tr⟩
  | ⟨Except.error e, s2, tr⟩ => ⟨Except.error e, s2, tr⟩

/-- The cache-related world of `get_cached`: the `OUT_DIR` value (its existence
as a directory is a panicking precondition, assumed here), the result of
`fs::create_dir_all`, file existence, `fs::read_to_string`, the result of
`fs::write`, and the opaque `filenamify` sanitizer from the external crate. -/
structure CacheWorld where
  out_dir : String
  create_dir_error : Option IOErrorMsg
  file_exists : String → Bool
  read_file : String → Except IOErrorMsg String
  write_error : String → String → Option IOErrorMsg
  filenamify : String → String

/-- Result of `get_cached`: the `Result`, the updated state, the subprocess
trace, and the cache-file writes attempted (path, contents). -/
structure CacheStepResult where
  result : Except VcvarsError String
  state : VcvarsState
  trace : List Invocation
  writes : List (String × String)
  deriving DecidableEq

/-- `Vcvars::get_cached` (src/lib.rs lines 61-114): create the cache directory,
compute the sanitized cache-file path; on an existing file return its contents
(read failure is `CacheFailed`); otherwise fall back to the resolver and write
the value to the cache file only after a successful lookup. -/
def get_cached (w : World) (cw : CacheWorld) (s : VcvarsState) (var_name : String) :
    CacheStepResult :=
  let cache_dir := cw.out_dir ++ "\\vcvars-cache"
  match cw.create_dir_error with
  | some err => ⟨Except.error (VcvarsError.CacheFailed cache_dir err), s, [], []⟩
  | none =>
    let cache_file := cache_dir ++ "\\" ++ cw.filenamify (var_name ++ ".txt")
    if cw.file_exists cache_file then
      match cw.read_file cache_file with
      | Except.ok value => ⟨Except.ok value, s, [], []⟩
      | Except.error err => ⟨Except.error (VcvarsError.CacheFailed cache_file err), s, [], []⟩
    else
      match ensure_env_map w s with
      | ⟨Except.ok m, s2, tr⟩ =>
        match envGet m (rust_to_uppercase var_name) with
        | some value =>
          match cw.write_error cache_file value with
          | none => ⟨Except.ok value, s2, tr, [(cache_file, value)]⟩
          | some err =>
            ⟨Except.error (VcvarsError.CacheFailed cache_file err), s2, tr, [(cache_file, value)]⟩
        | none => ⟨Except.error (VcvarsError.VarNotFound var_name), s2, tr, []⟩
      | ⟨Except.error e, s2, tr⟩ => ⟨Except.error e, s2, tr, []⟩

/-! ### Concrete worlds used by witnesses and counterexamples -/

/-- An environment providing the three variables the crate reads, targeting
`x86_64`. -/
def exEnv : String → Option String := fun n =>
  if n = "PROGRAMFILES(X86)" then some "C:\\PF86"
  else if n = "WINDIR" then some "C:\\Windows"
  else if n = "CARGO_CFG_TARGET_ARCH" then some "x86_64"
  else none

/-- A world in which the whole pipeline succeeds and the environment dump
contains `FOO=bar` and the junk line `BADLINE`. -/
def exWorld : World :=
  { envVar := exEnv
    hostArch := "x86_64"
    isFile := fun _ => true
    runVswhere := fun _ => Except.ok "C:\\VS\n"
    runCmd := fun _ =>
      Except.ok ⟨"preamble\r\n" ++ separator_line ++ " \r\nFOO=bar\r\nBADLINE\r\n", 0⟩ }

/-- Like `exWorld` but requesting the unsupported target architecture
`riscv64`. -/
def exWorldUnsupported : World :=
  { exWorld with envVar := fun n =>
      if n = "CARGO_CFG_TARGET_ARCH" then some "riscv64" else exEnv n }

/-- Like `exWorld` but `vcvarsall.bat` is missing, so a build attempt fails
after the `vswhere` invocation. -/
def exWorldNoVcvarsall : World :=
  { exWorld with isFile := fun p =>
      p = "C:\\PF86\\Microsoft Visual Studio\\Installer\\vswhere.exe" }

/-- Like `exWorld`, but the environment dump defines the variable named by the
single character U+0130 (LATIN CAPITAL LETTER I WITH DOT ABOVE). -/
def exWorldDottedI : World :=
  { exWorld with
    runCmd := fun _ =>
      Except.ok ⟨separator_line ++ " \r\n" ++ String.mk [Char.ofNat 0x130] ++ "=x\r\n", 0⟩ }

/-- Like `exWorld` but the `cmd.exe` output starts with the error marker. -/
def exWorldErrorMarker : World :=
  { exWorld with runCmd := fun _ => Except.ok ⟨"[ERROR:vcvarsall.bat] bad\r\nsecond line", 0⟩ }

/-- A cache world whose cache file for `FOO` exists with contents `cached`. -/
def exCacheHit : CacheWorld :=
  { out_dir := "C:\\out"
    create_dir_error := none
    file_exists := fun p => p = "C:\\out\\vcvars-cache\\FOO.txt"
    read_file := fun _ => Except.ok "cached"
    write_error := fun _ _ => none
    filenamify := fun n => n }

/-- A cache world with no cache files at all and infallible writes. -/
def exCacheMiss : CacheWorld :=
  { exCacheHit with file_exists := fun _ => false }

/-- A resolver state whose in-memory map has already been built,
holding `FOO=bar`. -/
def exBuiltState : VcvarsState :=
  { env_map := some [("FOO", "bar")], vswhere_latest_substitute_args := none }

/-! ### Helper lemmas -/

theorem splitOnceAux_eq_none_iff (d : Char) (cs : List Char) :
    splitOnceAux d cs = none ↔ d ∉ cs := by
  induction cs with
  | nil => simp [splitOnceAux]
  | cons c cs ih =>
    by_cases h : c = d
    · subst h
      simp [splitOnceAux]
    · simp [splitOnceAux, h, Option.map_eq_none', ih, Ne.symm h]

theorem split_once_eq_none_iff (l : String) :
    split_once l '=' = none ↔ '=' ∉ l.toList := by
  simp [split_once, Option.map_eq_none', splitOnceAux_eq_none_iff]

theorem process_cmd_stdout_error_kind (out : String) (e : VcvarsError)
    (h : process_cmd_stdout out = Except.error e) :
    ∃ msg, e = VcvarsError.VcvarsFailed msg := by
  unfold process_cmd_stdout at h
  split at h
  · exact ⟨_, (Except.error.injEq _ _).mp h.symm⟩
  · exact absurd h (by simp)

/-- Case analysis on a run of `make_env_map`: either it fails before any
subprocess (missing env var, or `vswhere.exe` absent), or it fails after
exactly the `vswhere` invocation (spawn failure, `vcvarsall.bat` absent, or
unsupported architecture), or it performs the `vswhere` invocation followed by
the `cmd.exe` invocation.  In the latter two cases the substitute arguments
have been taken (`mem::take`), and the `vswhere` argument list is always the
one built from the arguments stored at entry. -/
theorem make_env_map_shape (w : World) (s : VcvarsState) (out : StepResult EnvMap)
    (h : make_env_map w s = out) :
    (out.state = s ∧ out.trace = [] ∧
       ∃ e, out.result = Except.error e ∧
         ((∃ n, e = VcvarsError.MissingEnvVarDependency n) ∨ ∃ p, e = VcvarsError.FileNotFound p)) ∨
    (out.state = { s with vswhere_latest_substitute_args := none } ∧
       out.trace = [Invocation.vswhere (vswhere_full_args s.vswhere_latest_substitute_args)] ∧
       ∃ e, out.result = Except.error e ∧
         ((∃ p err, e = VcvarsError.CouldntRun p err) ∨ (∃ p, e = VcvarsError.FileNotFound p) ∨
           e = VcvarsError.UnsupportedArch)) ∨
    (out.state = { s with vswhere_latest_substitute_args := none } ∧
       (∃ a, out.trace =
         [Invocation.vswhere (vswhere_full_args s.vswhere_latest_substitute_args),
          Invocation.cmdExe a]) ∧
       ((∃ p err, out.result = Except.error (VcvarsError.CouldntRun p err)) ∨
         ∃ o, out.result = process_cmd_stdout o)) := by
  simp only [make_env_map] at h
  split at h
  · exact Or.inl (by subst h; exact ⟨rfl, rfl, _, rfl, Or.inl ⟨_, rfl⟩⟩)
  · split at h
    · exact Or.inl (by subst h; exact ⟨rfl, rfl, _, rfl, Or.inl ⟨_, rfl⟩⟩)
    · split at h
      · exact Or.inl (by subst h; exact ⟨rfl, rfl, _, rfl, Or.inl ⟨_, rfl⟩⟩)
      · split at h
        · exact Or.inl (by subst h; exact ⟨rfl, rfl, _, rfl, Or.inr ⟨_, rfl⟩⟩)
        · split at h
          · exact Or.inr (Or.inl (by subst h; exact ⟨rfl, rfl, _, rfl, Or.inl ⟨_, _, rfl⟩⟩))
          · split at h
            · exact Or.inr (Or.inl (by subst h; exact ⟨rfl, rfl, _, rfl, Or.inr (Or.inl ⟨_, rfl⟩)⟩))
            · split at h
              · exact Or.inr (Or.inl (by subst h; exact ⟨rfl, rfl, _, rfl, Or.inr (Or.inr rfl)⟩))
              · split at h
                · exact Or.inr (Or.inr (by subst h; exact ⟨rfl, ⟨_, rfl⟩, Or.inl ⟨_, _, rfl⟩⟩))
                · exact Or.inr (Or.inr (by subst h; exact ⟨rfl, ⟨_, rfl⟩, Or.inr ⟨_, rfl⟩⟩))

theorem make_env_map_preserves_env_map (w : World) (s : VcvarsState) :
    (make_env_map w s).state.env_map = s.env_map := by
  rcases make_env_map_shape w s _ rfl with ⟨h, -⟩ | ⟨h, -⟩ | ⟨h, -⟩ <;> rw [h]

theorem make_env_map_status_irrelevant (w : World) (s : VcvarsState) (f : CmdOutput → Nat) :
    make_env_map
      { w with runCmd := fun a => (w.runCmd a).map (fun o => ⟨o.stdout, f o⟩) } s =
      make_env_map w s := by
  simp only [make_env_map]
  split <;> try rfl
  split <;> try rfl
  split <;> try rfl
  split <;> try rfl
  split <;> try rfl
  split <;> try rfl
  split <;> try rfl
  cases hc : w.runCmd ["/C",
      escape_for_cmd (rust_trim _ ++ "\\VC\\Auxiliary\\Build\\vcvarsall.bat"), _, "&&",
      "echo." ++ separator_line, "&&", "set"] <;> simp [hc, Except.map]

/-! ### Claims -/

/-- C4: the environment-dump parser ignores every line up to and including the
first line that starts with the separator (prefix match); afterwards each line
containing `=` is split at the first `=` and upserted with the name uppercased,
a line with no `=` is ignored; with no separator line the map stays empty; and
the dump `separator / FOO=bar / BADLINE` yields exactly the entry `FOO → bar`. -/
theorem c4_parse_env_dump :
    (∀ l ls m, rust_starts_with l separator_line = false →
      parse_env_lines (l :: ls) false m = parse_env_lines ls false m) ∧
    (∀ l ls m, rust_starts_with l separator_line = true →
      parse_env_lines (l :: ls) false m = parse_env_lines ls true m) ∧
    (∀ l ls m k v, split_once l '=' = some (k, v) →
      parse_env_lines (l :: ls) true m =
        parse_env_lines ls true (envInsert m (rust_to_uppercase k) v)) ∧
    (∀ l ls m, '=' ∉ l.toList →
      parse_env_lines (l :: ls) true m = parse_env_lines ls true m) ∧
    (∀ ls, (∀ l ∈ ls, rust_starts_with l separator_line = false) →
      parse_env_lines ls false [] = []) ∧
    parse_env_lines [separator_line, "FOO=bar", "BADLINE"] false [] = [("FOO", "bar")] := by
  refine ⟨?_, ?_, ?_, ?_, ?_, by decide⟩
  · intro l ls m h
    simp [parse_env_lines, h]
  · intro l ls m h
    simp [parse_env_lines, h]
  · intro l ls m k v h
    simp [parse_env_lines, h]
  · intro l ls m h
    simp [parse_env_lines, (split_once_eq_none_iff l).mpr h]
  · intro ls h
    induction ls with
    | nil => simp [parse_env_lines]
    | cons l ls ih =>
      have hl := h l (by simp)
      simp only [parse_env_lines, hl, Bool.false_eq_true, if_false]
      exact ih (fun x hx => h x (by simp [hx]))

/-- C4 witness: the insert rule applied to the concrete line `FOO=bar`. -/
theorem c4_parse_env_dump_witness :
    parse_env_lines ["FOO=bar"] true [] =
      parse_env_lines [] true (envInsert [] (rust_to_uppercase "FOO") "bar") :=
  c4_parse_env_dump.2.2.1 "FOO=bar" [] [] "FOO" "bar" (by decide)

/-- C10: after the separator, only lines with no `=` at all are skipped; a line
whose first character is `=` is inserted under the empty-string name, with the
rest of the line as value, so the built map can contain an empty-name entry. -/
theorem c10_empty_name_entry :
    (∀ l ls m, '=' ∉ l.toList →
      parse_env_lines (l :: ls) true m = parse_env_lines ls true m) ∧
    (∀ cs ls m,
      parse_env_lines (String.mk ('=' :: cs) :: ls) true m =
        parse_env_lines ls true (envInsert m "" (String.mk cs))) ∧
    envGet (parse_env_lines [separator_line, "=abc"] false []) "" = some "abc" := by
  refine ⟨?_, ?_, by decide⟩
  · intro l ls m h
    simp [parse_env_lines, (split_once_eq_none_iff l).mpr h]
  · intro cs ls m
    have hsplit : split_once (String.mk ('=' :: cs)) '=' = some ("", String.mk cs) := by
      simp [split_once, splitOnceAux]
    simp [parse_env_lines, hsplit]
    rfl

/-- C10 witness: the empty-name insert rule at the concrete line `=abc`. -/
theorem c10_empty_name_entry_witness :
    parse_env_lines [String.mk ('=' :: "abc".toList)] true [] =
      parse_env_lines [] true (envInsert [] "" (String.mk "abc".toList)) :=
  c10_empty_name_entry.2.1 "abc".toList [] []

/-- C1 counterexample: with everything installed but the target architecture
`riscv64` (which has no mapping), building fails with `UnsupportedArch`, yet
the trace is not empty — the `vswhere` subprocess was invoked before the
failure, contradicting "no subprocess is invoked at any point before that
failure". -/
theorem c1_unsupported_arch_counterexample :
    (make_env_map exWorldUnsupported Vcvars.new).result =
      Except.error VcvarsError.UnsupportedArch ∧
    (make_env_map exWorldUnsupported Vcvars.new).trace ≠ [] ∧
    (make_env_map exWorldUnsupported Vcvars.new).trace =
      [Invocation.vswhere ["-prerelease", "-latest", "-property", "installationPath", "-utf8"]] := by
  refine ⟨by decide, by decide, by decide⟩

/-- C1 (amended): for every (host, target) pair with no mapping, the build
fails with `UnsupportedArch` once discovery reaches the architecture check;
no `cmd.exe` (toolchain shell) invocation ever precedes that failure, but
exactly one `vswhere` (installer query) invocation does, because the
architecture check happens only after the Visual Studio discovery. -/
theorem c1_unsupported_arch_amended :
    (∀ w s pf win target vsout,
       w.envVar "PROGRAMFILES(X86)" = some pf →
       w.envVar "WINDIR" = some win →
       w.envVar "CARGO_CFG_TARGET_ARCH" = some target →
       w.isFile (pf ++ "\\Microsoft Visual Studio\\Installer\\vswhere.exe") = true →
       w.runVswhere (vswhere_full_args s.vswhere_latest_substitute_args) = Except.ok vsout →
       w.isFile (rust_trim vsout ++ "\\VC\\Auxiliary\\Build\\vcvarsall.bat") = true →
       arch_arg_for w.hostArch target = none →
       make_env_map w s =
         ⟨Except.error VcvarsError.UnsupportedArch,
          { s with vswhere_latest_substitute_args := none },
          [Invocation.vswhere (vswhere_full_args s.vswhere_latest_substitute_args)]⟩) ∧
    (∀ w s out, make_env_map w s = out →
       out.result = Except.error VcvarsError.UnsupportedArch →
       out.trace = [Invocation.vswhere (vswhere_full_args s.vswhere_latest_substitute_args)] ∧
       ∀ a, Invocation.cmdExe a ∉ out.trace) := by
  constructor
  · intro w s pf win target vsout h1 h2 h3 h4 h5 h6 h7
    simp [make_env_map, h1, h2, h3, h4, h5, h6, h7]
  · intro w s out h hr
    rcases make_env_map_shape w s out h with ⟨-, htr, e, he, hk⟩ | ⟨-, htr, -⟩ | ⟨-, ⟨a, htr⟩, hk⟩
    · rw [hr] at he
      rcases hk with ⟨n, hn⟩ | ⟨p, hp⟩ <;> simp_all
    · simp [htr]
    · exfalso
      rcases hk with ⟨p, err, hres⟩ | ⟨o, hres⟩
      · rw [hr] at hres
        simp_all
      · rw [hres] at hr
        rcases process_cmd_stdout_error_kind o _ hr with ⟨msg, hmsg⟩
        simp_all

/-- C1 witness: the amended statement instantiated at the `riscv64` world. -/
theorem c1_unsupported_arch_amended_witness :
    make_env_map exWorldUnsupported Vcvars.new =
      ⟨Except.error VcvarsError.UnsupportedArch,
       { Vcvars.new with vswhere_latest_substitute_args := none },
       [Invocation.vswhere
         (vswhere_full_args Vcvars.new.vswhere_latest_substitute_args)]⟩ :=
  c1_unsupported_arch_amended.1 exWorldUnsupported Vcvars.new "C:\\PF86" "C:\\Windows"
    "riscv64" "C:\\VS\n" rfl rfl rfl rfl rfl rfl rfl

/-- C2 counterexample: an instance built with the override
`["-version", "[15.0,16.0)"]` passes the override on its first build attempt,
but after that attempt fails (missing `vcvarsall.bat`), the retry's `vswhere`
invocation falls back to `-latest` because `mem::take` emptied the stored
override — contradicting "every installer-query invocation ... including an
invocation performed by a retry". -/
theorem c2_override_counterexample :
    ((Vcvars.get exWorldNoVcvarsall
        (not_vswhere_latest_but Vcvars.new ["-version", "[15.0,16.0)"]) "X").result =
      Except.error (VcvarsError.FileNotFound "C:\\VS\\VC\\Auxiliary\\Build\\vcvarsall.bat")) ∧
    ((Vcvars.get exWorldNoVcvarsall
        (not_vswhere_latest_but Vcvars.new ["-version", "[15.0,16.0)"]) "X").trace =
      [Invocation.vswhere
        ["-prerelease", "-version", "[15.0,16.0)", "-property", "installationPath", "-utf8"]]) ∧
    ((Vcvars.get exWorldNoVcvarsall
        (Vcvars.get exWorldNoVcvarsall
          (not_vswhere_latest_but Vcvars.new ["-version", "[15.0,16.0)"]) "X").state "X").trace =
      [Invocation.vswhere ["-prerelease", "-latest", "-property", "installationPath", "-utf8"]]) := by
  refine ⟨by decide, by decide, by decide⟩

/-- C2 (amended): a `vswhere` invocation of a build attempt that still stores
override arguments passes exactly `-prerelease`, then the override (fully
replacing `-latest`, not merging with it), then
`-property installationPath -utf8`; but the attempt that performs the
invocation consumes the stored override (`mem::take`), so any later build
attempt on the same instance — e.g. a retry after a failure — invokes
`vswhere` with the default `-latest` selector instead. -/
theorem c2_override_amended :
    (∀ w s args a, s.vswhere_latest_substitute_args = some args →
       Invocation.vswhere a ∈ (make_env_map w s).trace →
       a = "-prerelease" :: (args ++ ["-property", "installationPath", "-utf8"])) ∧
    (∀ w s a, Invocation.vswhere a ∈ (make_env_map w s).trace →
       (make_env_map w s).state.vswhere_latest_substitute_args = none) ∧
    (∀ w s a, s.vswhere_latest_substitute_args = none →
       Invocation.vswhere a ∈ (make_env_map w s).trace →
       a = ["-prerelease", "-latest", "-property", "installationPath", "-utf8"]) := by
  refine ⟨?_, ?_, ?_⟩
  · intro w s args a hs hmem
    rcases make_env_map_shape w s _ rfl with ⟨-, htr, -⟩ | ⟨-, htr, -⟩ | ⟨-, ⟨b, htr⟩, -⟩ <;>
      rw [htr] at hmem <;> simp_all [vswhere_full_args]
  · intro w s a hmem
    rcases make_env_map_shape w s _ rfl with ⟨hst, htr, -⟩ | ⟨hst, htr, -⟩ | ⟨hst, ⟨b, htr⟩, -⟩ <;>
      rw [htr] at hmem <;> simp_all
  · intro w s a hs hmem
    rcases make_env_map_shape w s _ rfl with ⟨-, htr, -⟩ | ⟨-, htr, -⟩ | ⟨-, ⟨b, htr⟩, -⟩ <;>
      rw [htr] at hmem <;> simp_all [vswhere_full_args]

/-- C2 witness: the override rule instantiated at the concrete pinned-version
instance, whose first `vswhere` invocation carries the override wholesale. -/
theorem c2_override_amended_witness :
    ["-prerelease", "-version", "[15.0,16.0)", "-property", "installationPath", "-utf8"] =
      "-prerelease" ::
        (["-version", "[15.0,16.0)"] ++ ["-property", "installationPath", "-utf8"]) :=
  c2_override_amended.1 exWorldNoVcvarsall
    (not_vswhere_latest_but Vcvars.new ["-version", "[15.0,16.0)"])
    ["-version", "[15.0,16.0)"]
    ["-prerelease", "-version", "[15.0,16.0)", "-property", "installationPath", "-utf8"]
    rfl (by decide)

/-- C3: the toolchain subprocess sequence runs at most once per instance: a
successful build stores the map (`ensure_env_map` returning `ok m` leaves
`env_map = some m`), and on an instance whose map is built, both `get` and
`get_cached` spawn no subprocess and leave the state unchanged, whatever
variable is queried. -/
theorem c3_build_at_most_once :
    (∀ w s m out, ensure_env_map w s = out → out.result = Except.ok m →
       out.state.env_map = some m) ∧
    (∀ w s m name, s.env_map = some m →
       (Vcvars.get w s name).trace = [] ∧ (Vcvars.get w s name).state = s) ∧
    (∀ w cw s m name, s.env_map = some m →
       (get_cached w cw s name).trace = [] ∧ (get_cached w cw s name).state = s) := by
  refine ⟨?_, ?_, ?_⟩
  · intro w s m out h hok
    simp only [ensure_env_map] at h
    split at h
    · subst h
      simp_all
    · split at h
      · subst h
        simp_all
      · subst h
        simp_all
  · intro w s m name hmap
    simp only [Vcvars.get, ensure_env_map, hmap]
    cases hg : envGet m (rust_to_uppercase name) <;> simp [hg]
  · intro w cw s m name hmap
    simp only [get_cached, ensure_env_map, hmap]
    cases hd : cw.create_dir_error <;> simp [hd]
    by_cases hf : cw.file_exists
        (cw.out_dir ++ "\\vcvars-cache" ++ "\\" ++ cw.filenamify (name ++ ".txt")) = true
    · simp [hf]
      cases hr : cw.read_file
          (cw.out_dir ++ "\\vcvars-cache" ++ "\\" ++ cw.filenamify (name ++ ".txt")) <;> simp [hr]
    · simp [hf]
      cases hg : envGet m (rust_to_uppercase name) <;> simp [hg]
      cases hw : cw.write_error
          (cw.out_dir ++ "\\vcvars-cache" ++ "\\" ++ cw.filenamify (name ++ ".txt")) _ <;>
        simp [hw]

/-- C3 witness: a query on a built instance spawns nothing and keeps the state. -/
theorem c3_build_at_most_once_witness :
    (Vcvars.get exWorld exBuiltState "foo").trace = [] ∧
    (Vcvars.get exWorld exBuiltState "foo").state = exBuiltState :=
  c3_build_at_most_once.2.1 exWorld exBuiltState [("FOO", "bar")] "foo" rfl

/-- C5: output beginning with the `[ERROR:` marker makes the build fail with
`VcvarsFailed` whose message is all output lines joined by the literal
two-character sequence backslash-n; the full pipeline produces exactly that
error whenever the captured `cmd.exe` output starts with the marker; and the
decision depends on the output text alone — changing the exit status of every
subprocess result arbitrarily leaves `make_env_map` unchanged. -/
theorem c5_error_marker :
    (∀ out, rust_starts_with out "[ERROR:" = true →
       process_cmd_stdout out =
         Except.error (VcvarsError.VcvarsFailed (join_with "\\n" (rust_lines out)))) ∧
    (∀ w s pf win target vsout arch output,
       w.envVar "PROGRAMFILES(X86)" = some pf →
       w.envVar "WINDIR" = some win →
       w.envVar "CARGO_CFG_TARGET_ARCH" = some target →
       w.isFile (pf ++ "\\Microsoft Visual Studio\\Installer\\vswhere.exe") = true →
       w.runVswhere (vswhere_full_args s.vswhere_latest_substitute_args) = Except.ok vsout →
       w.isFile (rust_trim vsout ++ "\\VC\\Auxiliary\\Build\\vcvarsall.bat") = true →
       arch_arg_for w.hostArch target = some arch →
       w.runCmd ["/C", escape_for_cmd (rust_trim vsout ++ "\\VC\\Auxiliary\\Build\\vcvarsall.bat"),
         arch, "&&", "echo." ++ separator_line, "&&", "set"] = Except.ok output →
       rust_starts_with output.stdout "[ERROR:" = true →
       (make_env_map w s).result =
         Except.error (VcvarsError.VcvarsFailed (join_with "\\n" (rust_lines output.stdout)))) ∧
    (∀ (w : World) (s : VcvarsState) (f : CmdOutput → Nat), make_env_map
        { w with runCmd := fun a => (w.runCmd a).map (fun o => ⟨o.stdout, f o⟩) } s =
        make_env_map w s) := by
  refine ⟨?_, ?_, make_env_map_status_irrelevant⟩
  · intro out h
    simp [process_cmd_stdout, h]
  · intro w s pf win target vsout arch output h1 h2 h3 h4 h5 h6 h7 h8 h9
    simp [make_env_map, h1, h2, h3, h4, h5, h6, h7, h8, process_cmd_stdout, h9]

/-- C5 witness: the full pipeline on an output starting with the marker. -/
theorem c5_error_marker_witness :
    (make_env_map exWorldErrorMarker Vcvars.new).result =
      Except.error (VcvarsError.VcvarsFailed
        (join_with "\\n" (rust_lines "[ERROR:vcvarsall.bat] bad\r\nsecond line"))) :=
  c5_error_marker.2.1 exWorldErrorMarker Vcvars.new "C:\\PF86" "C:\\Windows" "x86_64"
    "C:\\VS\n" "x64" ⟨"[ERROR:vcvarsall.bat] bad\r\nsecond line", 0⟩
    rfl rfl rfl rfl rfl rfl rfl rfl (by decide)

/-- C6: when the cache file exists, `get_cached` returns its full contents on a
successful read — with empty subprocess trace, unchanged state and no writes —
and a read failure yields `CacheFailed` carrying the cache-file path, again
with no resolver activity. -/
theorem c6_cache_hit (w : World) (cw : CacheWorld) (s : VcvarsState) (name : String)
    (hdir : cw.create_dir_error = none)
    (hex : cw.file_exists
        (cw.out_dir ++ "\\vcvars-cache" ++ "\\" ++ cw.filenamify (name ++ ".txt")) = true) :
    (∀ contents,
       cw.read_file (cw.out_dir ++ "\\vcvars-cache" ++ "\\" ++ cw.filenamify (name ++ ".txt")) =
         Except.ok contents →
       get_cached w cw s name = ⟨Except.ok contents, s, [], []⟩) ∧
    (∀ err,
       cw.read_file (cw.out_dir ++ "\\vcvars-cache" ++ "\\" ++ cw.filenamify (name ++ ".txt")) =
         Except.error err →
       get_cached w cw s name =
         ⟨Except.error (VcvarsError.CacheFailed
             (cw.out_dir ++ "\\vcvars-cache" ++ "\\" ++ cw.filenamify (name ++ ".txt")) err),
           s, [], []⟩) := by
  constructor
  · intro contents hread
    simp [get_cached, hdir, hex, hread]
  · intro err hread
    simp [get_cached, hdir, hex, hread]

/-- C6 witness: a concrete cache hit returns the file contents untouched. -/
theorem c6_cache_hit_witness :
    get_cached exWorld exCacheHit Vcvars.new "FOO" =
      ⟨Except.ok "cached", Vcvars.new, [], []⟩ :=
  (c6_cache_hit exWorld exCacheHit Vcvars.new "FOO" rfl (by decide)).1 "cached" rfl

/-- C7: on a cache miss, a failing fallback (build error, or variable absent
from the built map) is propagated unchanged and performs no cache-file write:
the `writes` list is empty in both failure branches. -/
theorem c7_miss_failure_no_write (w : World) (cw : CacheWorld) (s : VcvarsState) (name : String)
    (hdir : cw.create_dir_error = none)
    (hmiss : cw.file_exists
        (cw.out_dir ++ "\\vcvars-cache" ++ "\\" ++ cw.filenamify (name ++ ".txt")) = false) :
    (∀ e s2 tr, ensure_env_map w s = ⟨Except.error e, s2, tr⟩ →
       get_cached w cw s name = ⟨Except.error e, s2, tr, []⟩) ∧
    (∀ m s2 tr, ensure_env_map w s = ⟨Except.ok m, s2, tr⟩ →
       envGet m (rust_to_uppercase name) = none →
       get_cached w cw s name = ⟨Except.error (VcvarsError.VarNotFound name), s2, tr, []⟩) := by
  constructor
  · intro e s2 tr hens
    simp [get_cached, hdir, hmiss, hens]
  · intro m s2 tr hens hg
    simp [get_cached, hdir, hmiss, hens, hg]

/-- C7 witness: a failing build behind a cache miss is propagated verbatim
with no write. -/
theorem c7_miss_failure_no_write_witness :
    get_cached exWorldNoVcvarsall exCacheMiss Vcvars.new "FOO" =
      ⟨Except.error (VcvarsError.FileNotFound "C:\\VS\\VC\\Auxiliary\\Build\\vcvarsall.bat"),
       { env_map := none, vswhere_latest_substitute_args := none },
       [Invocation.vswhere ["-prerelease", "-latest", "-property", "installationPath", "-utf8"]],
       []⟩ :=
  (c7_miss_failure_no_write exWorldNoVcvarsall exCacheMiss Vcvars.new "FOO" rfl (by decide)).1
    (VcvarsError.FileNotFound "C:\\VS\\VC\\Auxiliary\\Build\\vcvarsall.bat")
    { env_map := none, vswhere_latest_substitute_args := none }
    [Invocation.vswhere ["-prerelease", "-latest", "-property", "installationPath", "-utf8"]]
    (by decide)

/-- C8: a failed build is not memoized: an erroring `ensure_env_map` leaves
`env_map = none`; on an unbuilt instance `ensure_env_map` performs exactly the
full discovery-and-run sequence of `make_env_map`; and both `get` and
`get_cached` (on a miss) propagate the build error while leaving the instance
unbuilt, so the next call re-runs the sequence. -/
theorem c8_no_failure_memoization :
    (∀ w s e s2 tr, ensure_env_map w s = ⟨Except.error e, s2, tr⟩ → s2.env_map = none) ∧
    (∀ w s, s.env_map = none →
       (ensure_env_map w s).result = (make_env_map w s).result ∧
       (ensure_env_map w s).trace = (make_env_map w s).trace) ∧
    (∀ w s name e s2 tr, ensure_env_map w s = ⟨Except.error e, s2, tr⟩ →
       Vcvars.get w s name = ⟨Except.error e, s2, tr⟩) ∧
    (∀ w cw s name e s2 tr, cw.create_dir_error = none →
       cw.file_exists
         (cw.out_dir ++ "\\vcvars-cache" ++ "\\" ++ cw.filenamify (name ++ ".txt")) = false →
       ensure_env_map w s = ⟨Except.error e, s2, tr⟩ →
       get_cached w cw s name = ⟨Except.error e, s2, tr, []⟩) := by
  refine ⟨?_, ?_, ?_, ?_⟩
  · intro w s e s2 tr h
    simp only [ensure_env_map] at h
    split at h
    · simp_all
    · rename_i hnone
      split at h
      · simp_all
      · rename_i heq
        have hpres := make_env_map_preserves_env_map w s
        rw [heq] at hpres
        simp only [StepResult.mk.injEq] at h
        rw [← h.2.1]
        simp_all
  · intro w s hnone
    simp only [ensure_env_map, hnone]
    split <;> rename_i heq <;> rw [heq] <;> exact ⟨rfl, rfl⟩
  · intro w s name e s2 tr h
    simp [Vcvars.get, h]
  · intro w cw s name e s2 tr hdir hmiss h
    simp [get_cached, hdir, hmiss, h]

/-- C8 witness: after a failed build the instance is still unbuilt. -/
theorem c8_no_failure_memoization_witness :
    ({ env_map := none, vswhere_latest_substitute_args := none } : VcvarsState).env_map =
      none :=
  c8_no_failure_memoization.1 exWorldNoVcvarsall Vcvars.new
    (VcvarsError.FileNotFound "C:\\VS\\VC\\Auxiliary\\Build\\vcvarsall.bat")
    { env_map := none, vswhere_latest_substitute_args := none }
    [Invocation.vswhere ["-prerelease", "-latest", "-property", "installationPath", "-utf8"]]
    (by decide)

/-- C9 counterexample: the dump defines the variable named U+0130 (a name
present in the resolved map); `get` on that name and on its uppercase form
returns `x`, but `get` on its Rust lowercase form (U+0069 U+0307) fails with
`VarNotFound`, so the three calls do not all return the same value. -/
theorem c9_case_insensitive_counterexample :
    (Vcvars.get exWorldDottedI Vcvars.new (String.mk [Char.ofNat 0x130])).result =
      Except.ok "x" ∧
    (Vcvars.get exWorldDottedI Vcvars.new
        (rust_to_uppercase (String.mk [Char.ofNat 0x130]))).result = Except.ok "x" ∧
    (Vcvars.get exWorldDottedI Vcvars.new
        (rust_to_lowercase (String.mk [Char.ofNat 0x130]))).result =
      Except.error (VcvarsError.VarNotFound (String.mk [Char.ofNat 0x69, Char.ofNat 0x307])) := by
  refine ⟨by decide, by decide, by decide⟩

/-- C9 (amended): for every variable name present in the resolved map whose
uppercasing is idempotent and unaffected by first lowercasing — in particular
every ASCII name — `get(name)`, `get(name.to_uppercase())` and
`get(name.to_lowercase())` all return the same value, because lookups
uppercase the name before use as map key. -/
theorem c9_case_insensitive_amended (w : World) (s : VcvarsState) (m : EnvMap)
    (name v : String) (hmap : s.env_map = some m)
    (hup : rust_to_uppercase (rust_to_uppercase name) = rust_to_uppercase name)
    (hlow : rust_to_uppercase (rust_to_lowercase name) = rust_to_uppercase name)
    (hget : envGet m (rust_to_uppercase name) = some v) :
    (Vcvars.get w s name).result = Except.ok v ∧
    (Vcvars.get w s (rust_to_uppercase name)).result = Except.ok v ∧
    (Vcvars.get w s (rust_to_lowercase name)).result = Except.ok v := by
  simp [Vcvars.get, ensure_env_map, hmap, hup, hlow, hget]

/-- C9 witness: the three lookups agree on the ASCII name `Foo`. -/
theorem c9_case_insensitive_amended_witness :
    (Vcvars.get exWorld exBuiltState "Foo").result = Except.ok "bar" ∧
    (Vcvars.get exWorld exBuiltState (rust_to_uppercase "Foo")).result = Except.ok "bar" ∧
    (Vcvars.get exWorld exBuiltState (rust_to_lowercase "Foo")).result = Except.ok "bar" :=
  c9_case_insensitive_amended exWorld exBuiltState [("FOO", "bar")] "Foo" "bar" rfl
    (by decide) (by decide) (by decide)

end VcvarsRs
